import Mathlib

/-!
Shallow embedding of the UMICP Rust core (src/bindings/rust/src), covering the
envelope / builder / serializer / hasher and the numeric matrix kernel, together
with theorems settling the specification claims.

Modelling conventions:
* Rust `Result<T, UmicpError>` becomes `Except UmicpError T`.
* `HashMap<String, String>` becomes an association list `List (String × String)`;
  serde serializes a map in iteration order, which the list order models.
* Mutable output buffers (`&mut [f32]`) become explicit state passing: an
  operation taking a buffer returns the pair (call result, buffer after the call).
* `f32` arithmetic is kept abstract behind `Float32Ops`, since the kernel control
  flow depends only on the comparison operations, never on rounding.
* The serde_json text layer is modelled by the `Json` value type plus a faithful
  compact renderer; deserialization is modelled at the `Json` value level.
-/

namespace Umicp

/-- Models `UmicpError` from src/bindings/rust/src/error.rs (the variants reachable
from the envelope and matrix code). -/
inductive UmicpError where
  | serialization (message : String)
  | transport (message : String)
  | matrix (message : String)
  | validation (message : String)
  | generic (message : String)
deriving DecidableEq, Repr

/-- Decidable equality for `Except`, so concrete results can be checked by
`decide`. -/
instance {ε α : Type} [DecidableEq ε] [DecidableEq α] : DecidableEq (Except ε α) := fun a b =>
  match a, b with
  | .error e₁, .error e₂ =>
    if h : e₁ = e₂ then isTrue (congrArg Except.error h)
    else isFalse fun hh => h (Except.error.inj hh)
  | .ok a₁, .ok a₂ =>
    if h : a₁ = a₂ then isTrue (congrArg Except.ok h)
    else isFalse fun hh => h (Except.ok.inj hh)
  | .error _, .ok _ => isFalse fun hh => Except.noConfusion hh
  | .ok _, .error _ => isFalse fun hh => Except.noConfusion hh

/-- The Unicode White_Space property, which Rust `char::is_whitespace` (and hence
`str::trim`) uses. -/
def isRustWhitespace (c : Char) : Bool :=
  let n := c.toNat
  (0x09 ≤ n && n ≤ 0x0D) || n == 0x20 || n == 0x85 || n == 0xA0 || n == 0x1680 ||
  (0x2000 ≤ n && n ≤ 0x200A) || n == 0x2028 || n == 0x2029 || n == 0x202F || n == 0x205F ||
  n == 0x3000

/-- Models Rust `str::trim`: drop leading and trailing whitespace. -/
def rustTrim (s : String) : String :=
  ⟨((s.data.dropWhile isRustWhitespace).reverse.dropWhile isRustWhitespace).reverse⟩

/-- Models `validate_non_empty` from src/bindings/rust/src/utils.rs:
error when `value.trim().is_empty()`. -/
def validate_non_empty (value field_name : String) : Except UmicpError Unit :=
  if (rustTrim value).data.isEmpty then
    .error (.validation ("Field \x27" ++ field_name ++ "\x27 cannot be empty"))
  else
    .ok ()

/-- An ASCII hexadecimal digit (either case), as accepted by the uuid crate. -/
def isHexChar (c : Char) : Bool :=
  let n := c.toNat
  (0x30 ≤ n && n ≤ 0x39) || (0x61 ≤ n && n ≤ 0x66) || (0x41 ≤ n && n ≤ 0x46)

/-- The hyphenated UUID form 8-4-4-4-12: 36 characters, hyphens at positions
8, 13, 18, 23, hex digits elsewhere. -/
def isHyphenatedUuid (cs : List Char) : Bool :=
  cs.length == 36 &&
  cs.enum.all fun ic =>
    if ic.1 == 8 || ic.1 == 13 || ic.1 == 18 || ic.1 == 23 then ic.2 == '-'
    else isHexChar ic.2

/-- Models `validate_uuid` from src/bindings/rust/src/utils.rs, i.e.
`Uuid::parse_str(s).is_ok()`. The uuid crate accepts four textual forms,
dispatching on the input length: simple (32 hex digits), hyphenated (36 chars),
braced hyphenated (38 chars), and URN (45 chars); hex digits of either case and
any version nibble are accepted. -/
def validate_uuid (s : String) : Bool :=
  let cs := s.data
  if cs.length == 32 then cs.all isHexChar
  else if cs.length == 36 then isHyphenatedUuid cs
  else if cs.length == 38 then
    match cs with
    | c :: rest =>
      c == '\x7b' &&
      (match rest.getLast? with
       | some d => d == '\x7d' && isHyphenatedUuid (rest.dropLast)
       | none => false)
    | [] => false
  else if cs.length == 45 then
    cs.take 9 == "urn:uuid:".data && isHyphenatedUuid (cs.drop 9)
  else false

/-! ### SHA-256 (FIPS 180-4), used by `generate_hash` -/

/-- 32-bit right rotation on a `Nat` below `2 ^ 32`. -/
def rotr32 (n x : Nat) : Nat := ((x >>> n) ||| (x <<< (32 - n))) % 2 ^ 32

def sha256Ch (x y z : Nat) : Nat := (x &&& y) ^^^ ((x ^^^ 0xFFFFFFFF) &&& z)

def sha256Maj (x y z : Nat) : Nat := (x &&& y) ^^^ (x &&& z) ^^^ (y &&& z)

def sha256BigSigma0 (x : Nat) : Nat := rotr32 2 x ^^^ rotr32 13 x ^^^ rotr32 22 x

def sha256BigSigma1 (x : Nat) : Nat := rotr32 6 x ^^^ rotr32 11 x ^^^ rotr32 25 x

def sha256SmallSigma0 (x : Nat) : Nat := rotr32 7 x ^^^ rotr32 18 x ^^^ (x >>> 3)

def sha256SmallSigma1 (x : Nat) : Nat := rotr32 17 x ^^^ rotr32 19 x ^^^ (x >>> 10)

def sha256K : List Nat :=
  [1116352408, 1899447441, 3049323471, 3921009573, 961987163, 1508970993,
   2453635748, 2870763221, 3624381080, 310598401, 607225278, 1426881987,
   1925078388, 2162078206, 2614888103, 3248222580, 3835390401, 4022224774,
   264347078, 604807628, 770255983, 1249150122, 1555081692, 1996064986,
   2554220882, 2821834349, 2952996808, 3210313671, 3336571891, 3584528711,
   113926993, 338241895, 666307205, 773529912, 1294757372, 1396182291,
   1695183700, 1986661051, 2177026350, 2456956037, 2730485921, 2820302411,
   3259730800, 3345764771, 3516065817, 3600352804, 4094571909, 275423344,
   430227734, 506948616, 659060556, 883997877, 958139571, 1322822218,
   1537002063, 1747873779, 1955562222, 2024104815, 2227730452, 2361852424,
   2428436474, 2756734187, 3204031479, 3329325298]

def sha256H0 : List Nat :=
  [1779033703, 3144134277, 1013904242, 2773480762,
   1359893119, 2600822924, 528734635, 1541459225]

/-- Append the SHA-256 padding to a byte string. -/
def sha256Pad (msg : List Nat) : List Nat :=
  let len := msg.length
  let bitLen := len * 8
  let zeros := (119 - len % 64) % 64
  msg ++ [0x80] ++ List.replicate zeros 0 ++
    [bitLen >>> 56 % 256, bitLen >>> 48 % 256, bitLen >>> 40 % 256, bitLen >>> 32 % 256,
     bitLen >>> 24 % 256, bitLen >>> 16 % 256, bitLen >>> 8 % 256, bitLen % 256]

/-- Big-endian 4-byte groups to 32-bit words. -/
def bytesToWords : List Nat → List Nat
  | a :: b :: c :: d :: rest => (a * 2 ^ 24 + b * 2 ^ 16 + c * 2 ^ 8 + d) :: bytesToWords rest
  | _ => []

/-- Split a byte string into 64-byte blocks. -/
def chunks64 (bs : List Nat) : List (List Nat) :=
  if h : bs = [] then []
  else bs.take 64 :: chunks64 (bs.drop 64)
termination_by bs.length
decreasing_by
  simp only [List.length_drop]
  exact Nat.sub_lt (List.length_pos.mpr h) (by norm_num)

/-- Extend the 16-word block to the 64-word message schedule
(`count` is the number of words still to append). -/
def sha256Schedule : Nat → Array Nat → Array Nat
  | 0, w => w
  | n + 1, w =>
    let t := w.size
    sha256Schedule n (w.push
      ((sha256SmallSigma1 (w.getD (t - 2) 0) + w.getD (t - 7) 0 +
        sha256SmallSigma0 (w.getD (t - 15) 0) + w.getD (t - 16) 0) % 2 ^ 32))

/-- One round of the SHA-256 compression function on the 8-word state. -/
def sha256Round (st : List Nat) (kw : Nat × Nat) : List Nat :=
  match st with
  | [a, b, c, d, e, f, g, h] =>
    let t1 := (h + sha256BigSigma1 e + sha256Ch e f g + kw.1 + kw.2) % 2 ^ 32
    let t2 := (sha256BigSigma0 a + sha256Maj a b c) % 2 ^ 32
    [(t1 + t2) % 2 ^ 32, a, b, c, (d + t1) % 2 ^ 32, e, f, g]
  | other => other

/-- Process one 64-byte block. -/
def sha256Block (h : List Nat) (block : List Nat) : List Nat :=
  let w := sha256Schedule 48 (Array.mk (bytesToWords block))
  let st := (sha256K.zip w.toList).foldl sha256Round h
  (h.zip st).map fun xy => (xy.1 + xy.2) % 2 ^ 32

/-- SHA-256 of a byte string, as a 32-byte string. -/
def sha256 (msg : List Nat) : List Nat :=
  let final := (chunks64 (sha256Pad msg)).foldl sha256Block sha256H0
  (final.map fun w => [w >>> 24 % 256, w >>> 16 % 256, w >>> 8 % 256, w % 256]).flatten

/-- Lowercase hexadecimal digit for a value below 16. -/
def hexDigitChar (n : Nat) : Char :=
  if n < 10 then Char.ofNat (48 + n) else Char.ofNat (87 + n)

/-- Models `hex::encode`: lowercase hexadecimal, two digits per byte. -/
def hexEncode (bytes : List Nat) : String :=
  ⟨(bytes.map fun b => [hexDigitChar (b / 16 % 16), hexDigitChar (b % 16)]).flatten⟩

/-- Models `generate_hash` from src/bindings/rust/src/utils.rs:
`hex::encode(Sha256::digest(data))`. -/
def generate_hash (data : List Nat) : String := hexEncode (sha256 data)

/-- UTF-8 encoding of one character. -/
def utf8EncodeChar (c : Char) : List Nat :=
  let n := c.toNat
  if n < 0x80 then [n]
  else if n < 0x800 then [0xC0 ||| (n >>> 6), 0x80 ||| (n &&& 0x3F)]
  else if n < 0x10000 then
    [0xE0 ||| (n >>> 12), 0x80 ||| ((n >>> 6) &&& 0x3F), 0x80 ||| (n &&& 0x3F)]
  else
    [0xF0 ||| (n >>> 18), 0x80 ||| ((n >>> 12) &&& 0x3F), 0x80 ||| ((n >>> 6) &&& 0x3F),
     0x80 ||| (n &&& 0x3F)]

/-- Models `str::as_bytes`: the UTF-8 encoding of a string. -/
def utf8Encode (s : String) : List Nat := (s.data.map utf8EncodeChar).flatten

/-! ### Primitive types (src/bindings/rust/src/types.rs) -/

/-- Models `OperationType`. -/
inductive OperationType where
  | control
  | data
  | ack
  | error
  | request
  | response
deriving DecidableEq, Repr

/-- The `Display` rendering of `OperationType` (lowercase names). -/
def OperationType.toStr : OperationType → String
  | .control => "control"
  | .data => "data"
  | .ack => "ack"
  | .error => "error"
  | .request => "request"
  | .response => "response"

/-- Models `PayloadType`. -/
inductive PayloadType where
  | vector
  | text
  | metadata
  | binary
deriving DecidableEq, Repr

/-- The `Display` rendering of `PayloadType`. -/
def PayloadType.toStr : PayloadType → String
  | .vector => "vector"
  | .text => "text"
  | .metadata => "metadata"
  | .binary => "binary"

/-- Models `EncodingType`. -/
inductive EncodingType where
  | float32
  | float64
  | int32
  | int64
  | uint8
  | uint16
  | uint32
  | uint64
deriving DecidableEq, Repr

/-- The `Display` rendering of `EncodingType`. -/
def EncodingType.toStr : EncodingType → String
  | .float32 => "float32"
  | .float64 => "float64"
  | .int32 => "int32"
  | .int64 => "int64"
  | .uint8 => "uint8"
  | .uint16 => "uint16"
  | .uint32 => "uint32"
  | .uint64 => "uint64"

/-- Models `PayloadHint` (the `u64` fields become `Nat`). -/
structure PayloadHint where
  payload_type : PayloadType
  size : Option Nat
  encoding : Option EncodingType
  count : Option Nat
deriving DecidableEq, Repr

/-! ### Envelope (src/bindings/rust/src/envelope.rs) -/

/-- Models the `Envelope` struct. Rust field `from` is a Lean keyword, so it is
called `from_` here. `Capabilities` and `PayloadRefs` hash maps become
association lists. -/
structure Envelope where
  version : String
  message_id : String
  timestamp : String
  from_ : String
  to_ : String
  operation : OperationType
  capabilities : Option (List (String × String))
  schema_uri : Option String
  accept : Option (List String)
  payload_hint : Option PayloadHint
  payload_refs : Option (List (List (String × String)))
deriving DecidableEq, Repr

/-- Models the internal `PayloadHintData` wire struct (field `type` is serialized
under the serde rename; here it keeps its Rust name `payload_type`). -/
structure PayloadHintData where
  payload_type : String
  size : Option Nat
  encoding : Option String
  count : Option Nat
deriving DecidableEq, Repr

/-- Models the internal `EnvelopeData` wire struct. -/
structure EnvelopeData where
  v : String
  msg_id : String
  ts : String
  from_ : String
  to_ : String
  op : String
  capabilities : Option (List (String × String))
  schema_uri : Option String
  accept : Option (List String)
  payload_hint : Option PayloadHintData
  payload_refs : Option (List (List (String × String)))
deriving DecidableEq, Repr

/-- Models `Envelope::new`. The two impure calls (`generate_uuid()` and
`get_current_timestamp()`) become explicit arguments. -/
def Envelope.new (uuid timestamp : String) : Envelope where
  version := "1.0"
  message_id := uuid
  timestamp := timestamp
  from_ := ""
  to_ := ""
  operation := .control
  capabilities := none
  schema_uri := none
  accept := none
  payload_hint := none
  payload_refs := none

/-- The capability loop inside `Envelope::validate`: every key and value must be
non-empty, in iteration order. -/
def validateCapabilitiesList : List (String × String) → Except UmicpError Unit
  | [] => .ok ()
  | (key, value) :: rest => do
    validate_non_empty key "capability key"
    validate_non_empty value "capability value"
    validateCapabilitiesList rest

/-- The accept loop inside `Envelope::validate`: every content type must be
non-empty. -/
def validateAcceptList : List String → Except UmicpError Unit
  | [] => .ok ()
  | content_type :: rest => do
    validate_non_empty content_type "accept type"
    validateAcceptList rest

/-- The checks of `Envelope::validate` that follow the message-id checks:
capability keys and values, `schema_uri`, accept entries, in source order. -/
def validateTail (e : Envelope) : Except UmicpError Unit := do
  match e.capabilities with
  | some capabilities => validateCapabilitiesList capabilities
  | none => pure ()
  match e.schema_uri with
  | some schema_uri => validate_non_empty schema_uri "schema_uri"
  | none => pure ()
  match e.accept with
  | some accept => validateAcceptList accept
  | none => pure ()

/-- Models `Envelope::validate`: non-emptiness of `from`, `to`, `message_id`,
then the UUID-format check (early return on failure), then the remaining
checks. -/
def Envelope.validate (e : Envelope) : Except UmicpError Unit := do
  validate_non_empty e.from_ "from"
  validate_non_empty e.to_ "to"
  validate_non_empty e.message_id "message_id"
  if validate_uuid e.message_id then
    validateTail e
  else
    Except.error (.validation ("Invalid UUID format: " ++ e.message_id))

/-- Models `Envelope::to_envelope_data`. -/
def Envelope.to_envelope_data (e : Envelope) : EnvelopeData where
  v := e.version
  msg_id := e.message_id
  ts := e.timestamp
  from_ := e.from_
  to_ := e.to_
  op := e.operation.toStr
  capabilities := e.capabilities
  schema_uri := e.schema_uri
  accept := e.accept
  payload_hint := e.payload_hint.map fun hint =>
    { payload_type := hint.payload_type.toStr
      size := hint.size
      encoding := hint.encoding.map EncodingType.toStr
      count := hint.count }
  payload_refs := e.payload_refs

/-- Models `Envelope::from_envelope_data`, including the rejection of unknown
operation, payload-type and encoding strings. -/
def Envelope.from_envelope_data (data : EnvelopeData) : Except UmicpError Envelope := do
  let operation ← match data.op with
    | "control" => pure OperationType.control
    | "data" => pure OperationType.data
    | "ack" => pure OperationType.ack
    | "error" => pure OperationType.error
    | "request" => pure OperationType.request
    | "response" => pure OperationType.response
    | _ => throw (.validation ("Unknown operation type: " ++ data.op))
  let payload_hint ← match data.payload_hint with
    | some hint => do
      let payload_type ← match hint.payload_type with
        | "vector" => pure PayloadType.vector
        | "text" => pure PayloadType.text
        | "metadata" => pure PayloadType.metadata
        | "binary" => pure PayloadType.binary
        | _ => throw (.validation ("Unknown payload type: " ++ hint.payload_type))
      let encoding ← match hint.encoding with
        | some enc =>
          match enc with
          | "float32" => pure (some EncodingType.float32)
          | "float64" => pure (some EncodingType.float64)
          | "int32" => pure (some EncodingType.int32)
          | "int64" => pure (some EncodingType.int64)
          | "uint8" => pure (some EncodingType.uint8)
          | "uint16" => pure (some EncodingType.uint16)
          | "uint32" => pure (some EncodingType.uint32)
          | "uint64" => pure (some EncodingType.uint64)
          | _ => throw (.validation ("Unknown encoding type: " ++ enc))
        | none => pure none
      pure (some { payload_type := payload_type
                   size := hint.size
                   encoding := encoding
                   count := hint.count : PayloadHint })
    | none => pure none
  pure { version := data.v
         message_id := data.msg_id
         timestamp := data.ts
         from_ := data.from_
         to_ := data.to_
         operation := operation
         capabilities := data.capabilities
         schema_uri := data.schema_uri
         accept := data.accept
         payload_hint := payload_hint
         payload_refs := data.payload_refs }

/-! ### Envelope builder -/

/-- Models `EnvelopeBuilder`. -/
structure EnvelopeBuilder where
  envelope : Envelope
deriving DecidableEq, Repr

/-- Models `EnvelopeBuilder::new` (same impure arguments as `Envelope::new`). -/
def EnvelopeBuilder.new (uuid timestamp : String) : EnvelopeBuilder :=
  ⟨Envelope.new uuid timestamp⟩

/-- Models the builder setter `from`. -/
def EnvelopeBuilder.from_ (b : EnvelopeBuilder) (s : String) : EnvelopeBuilder :=
  ⟨{ b.envelope with from_ := s }⟩

/-- Models the builder setter `to`. -/
def EnvelopeBuilder.to_ (b : EnvelopeBuilder) (s : String) : EnvelopeBuilder :=
  ⟨{ b.envelope with to_ := s }⟩

/-- Models the builder setter `operation`. -/
def EnvelopeBuilder.operation (b : EnvelopeBuilder) (op : OperationType) : EnvelopeBuilder :=
  ⟨{ b.envelope with operation := op }⟩

/-- Models the builder setter `message_id`. -/
def EnvelopeBuilder.message_id (b : EnvelopeBuilder) (s : String) : EnvelopeBuilder :=
  ⟨{ b.envelope with message_id := s }⟩

/-- Models `Envelope::add_capability` / the builder setter `capability`
(insertion into the map modelled as appending when starting from `none`;
`HashMap::insert` order is modelled by list append with key replacement). -/
def insertCapability (caps : List (String × String)) (key value : String) :
    List (String × String) :=
  if caps.any fun kv => kv.1 == key then
    caps.map fun kv => if kv.1 == key then (key, value) else kv
  else caps ++ [(key, value)]

/-- Models the builder setter `capability` (additive). -/
def EnvelopeBuilder.capability (b : EnvelopeBuilder) (key value : String) : EnvelopeBuilder :=
  ⟨{ b.envelope with
     capabilities := some (insertCapability (b.envelope.capabilities.getD []) key value) }⟩

/-- Models the builder setter `capabilities` (replace). -/
def EnvelopeBuilder.capabilities (b : EnvelopeBuilder) (caps : List (String × String)) :
    EnvelopeBuilder :=
  ⟨{ b.envelope with capabilities := some caps }⟩

/-- Models the builder setter `schema_uri`. -/
def EnvelopeBuilder.schema_uri (b : EnvelopeBuilder) (s : String) : EnvelopeBuilder :=
  ⟨{ b.envelope with schema_uri := some s }⟩

/-- Models the builder setter `accept`. -/
def EnvelopeBuilder.accept (b : EnvelopeBuilder) (a : List String) : EnvelopeBuilder :=
  ⟨{ b.envelope with accept := some a }⟩

/-- Models the builder setter `payload_hint`. -/
def EnvelopeBuilder.payload_hint (b : EnvelopeBuilder) (hint : PayloadHint) : EnvelopeBuilder :=
  ⟨{ b.envelope with payload_hint := some hint }⟩

/-- Models the builder setter `payload_refs`. -/
def EnvelopeBuilder.payload_refs (b : EnvelopeBuilder)
    (refs : List (List (String × String))) : EnvelopeBuilder :=
  ⟨{ b.envelope with payload_refs := some refs }⟩

/-- Models `EnvelopeBuilder::build`: validate, then hand out the envelope. -/
def EnvelopeBuilder.build (b : EnvelopeBuilder) : Except UmicpError Envelope := do
  b.envelope.validate
  pure b.envelope

/-! ### JSON wire form (the serde_json value level) -/

/-- JSON values, restricted to the forms the envelope wire representation uses
(strings, non-negative integers, arrays, objects). -/
inductive Json where
  | str (s : String)
  | num (n : Nat)
  | arr (elems : List Json)
  | obj (fields : List (String × Json))

/-- serde_json string escaping: quote, backslash, and control characters;
everything else is emitted as is. -/
def escapeChar (c : Char) : List Char :=
  if c == '\"' then ['\\', '\"']
  else if c == '\\' then ['\\', '\\']
  else if c.toNat < 0x20 then
    match c.toNat with
    | 8 => ['\\', 'b']
    | 9 => ['\\', 't']
    | 10 => ['\\', 'n']
    | 12 => ['\\', 'f']
    | 13 => ['\\', 'r']
    | n => ['\\', 'u', '0', '0', hexDigitChar (n / 16), hexDigitChar (n % 16)]
  else [c]

/-- Render a JSON string literal. -/
def renderJsonString (s : String) : String :=
  "\"" ++ ⟨(s.data.map escapeChar).flatten⟩ ++ "\""

mutual

/-- Compact rendering of a JSON value, as `serde_json::to_string` produces it:
no whitespace, fields in order. -/
def renderJson : Json → String
  | .str s => renderJsonString s
  | .num n => toString n
  | .arr elems => "[" ++ renderElems elems ++ "]"
  | .obj fields => "\x7b" ++ renderFields fields ++ "\x7d"

/-- Comma-separated rendering of array elements. -/
def renderElems : List Json → String
  | [] => ""
  | [e] => renderJson e
  | e :: rest => renderJson e ++ "," ++ renderElems rest

/-- Comma-separated rendering of object fields. -/
def renderFields : List (String × Json) → String
  | [] => ""
  | [kv] => renderJsonString kv.1 ++ ":" ++ renderJson kv.2
  | kv :: rest => renderJsonString kv.1 ++ ":" ++ renderJson kv.2 ++ "," ++ renderFields rest

end

/-- A string-to-string map as a JSON object. -/
def strMapToJson (m : List (String × String)) : Json :=
  .obj (m.map fun kv => (kv.1, .str kv.2))

/-- serde serialization of `PayloadHintData`: field `payload_type` renamed to
`type`; `None` fields skipped. -/
def PayloadHintData.toJson (h : PayloadHintData) : Json :=
  .obj ([("type", .str h.payload_type)] ++
    (match h.size with | some n => [("size", Json.num n)] | none => []) ++
    (match h.encoding with | some e => [("encoding", Json.str e)] | none => []) ++
    (match h.count with | some n => [("count", Json.num n)] | none => []))

/-- serde serialization of `EnvelopeData`: fields in declaration order, `None`
fields skipped entirely. -/
def EnvelopeData.toJson (d : EnvelopeData) : Json :=
  .obj ([("v", Json.str d.v), ("msg_id", Json.str d.msg_id), ("ts", Json.str d.ts),
         ("from", Json.str d.from_), ("to", Json.str d.to_), ("op", Json.str d.op)] ++
    (match d.capabilities with | some m => [("capabilities", strMapToJson m)] | none => []) ++
    (match d.schema_uri with | some s => [("schema_uri", Json.str s)] | none => []) ++
    (match d.accept with | some l => [("accept", Json.arr (l.map Json.str))] | none => []) ++
    (match d.payload_hint with | some h => [("payload_hint", h.toJson)] | none => []) ++
    (match d.payload_refs with
     | some rs => [("payload_refs", Json.arr (rs.map strMapToJson))]
     | none => []))

/-- Look up a field of a JSON object (first occurrence, as serde reads
non-duplicated objects). -/
def Json.getField (j : Json) (name : String) : Option Json :=
  match j with
  | .obj fields => fields.lookup name
  | _ => none

def Json.asString : Json → Option String
  | .str s => some s
  | _ => none

def Json.asNat : Json → Option Nat
  | .num n => some n
  | _ => none

/-- Element-wise decoding of an object's fields as string values. -/
def strPairsFromJson : List (String × Json) → Option (List (String × String))
  | [] => some []
  | (k, .str s) :: rest => (strPairsFromJson rest).map fun r => (k, s) :: r
  | _ => none

def Json.asStrMap : Json → Option (List (String × String))
  | .obj fields => strPairsFromJson fields
  | _ => none

/-- Element-wise decoding of an array's elements as strings. -/
def strListFromJson : List Json → Option (List String)
  | [] => some []
  | .str s :: rest => (strListFromJson rest).map fun r => s :: r
  | _ => none

def Json.asStrList : Json → Option (List String)
  | .arr elems => strListFromJson elems
  | _ => none

/-- Element-wise decoding of an array's elements as string maps. -/
def strMapsFromJson : List Json → Option (List (List (String × String)))
  | [] => some []
  | j :: rest =>
    match j.asStrMap with
    | some m => (strMapsFromJson rest).map fun r => m :: r
    | none => none

def Json.asStrMapList : Json → Option (List (List (String × String)))
  | .arr elems => strMapsFromJson elems
  | _ => none

/-- Read an optional struct field: absent means `none`, present but ill-typed is
a parse failure. -/
def optField (j : Json) (name : String) (f : Json → Option α) : Option (Option α) :=
  match j.getField name with
  | none => some none
  | some v => (f v).map some

/-- serde deserialization of `PayloadHintData` from a JSON value. -/
def PayloadHintData.fromJson (j : Json) : Option PayloadHintData := do
  let tj ← j.getField "type"
  let payload_type ← tj.asString
  let size ← optField j "size" Json.asNat
  let encoding ← optField j "encoding" Json.asString
  let count ← optField j "count" Json.asNat
  pure { payload_type := payload_type, size := size, encoding := encoding, count := count }

/-- serde deserialization of `EnvelopeData` from a JSON value: the six required
fields must be present as strings, optional fields default to `None`. -/
def EnvelopeData.fromJson (j : Json) : Option EnvelopeData := do
  let v ← (← j.getField "v").asString
  let msg_id ← (← j.getField "msg_id").asString
  let ts ← (← j.getField "ts").asString
  let from_ ← (← j.getField "from").asString
  let to_ ← (← j.getField "to").asString
  let op ← (← j.getField "op").asString
  let capabilities ← optField j "capabilities" Json.asStrMap
  let schema_uri ← optField j "schema_uri" Json.asString
  let accept ← optField j "accept" Json.asStrList
  let payload_hint ← optField j "payload_hint" PayloadHintData.fromJson
  let payload_refs ← optField j "payload_refs" Json.asStrMapList
  pure { v := v, msg_id := msg_id, ts := ts, from_ := from_, to_ := to_, op := op,
         capabilities := capabilities, schema_uri := schema_uri, accept := accept,
         payload_hint := payload_hint, payload_refs := payload_refs }

/-! ### Serializer / hasher -/

/-- The JSON value `Envelope::serialize` encodes. -/
def Envelope.serializeJson (e : Envelope) : Json :=
  e.to_envelope_data.toJson

/-- Models `Envelope::serialize`: serde_json encoding of the envelope data. The
encoding of `EnvelopeData` cannot fault, so the result is always `ok`. -/
def Envelope.serialize (e : Envelope) : Except UmicpError String :=
  .ok (renderJson e.serializeJson)

/-- Models `Envelope::deserialize` at the JSON value level: parse the wire
object into `EnvelopeData`, then convert via `from_envelope_data`. -/
def Envelope.deserializeJson (j : Json) : Except UmicpError Envelope :=
  match EnvelopeData.fromJson j with
  | some data => Envelope.from_envelope_data data
  | none => .error (.serialization "Failed to deserialize envelope")

/-- Models `Envelope::hash`: serialize, then `generate_hash` of the UTF-8 bytes. -/
def Envelope.hash (e : Envelope) : Except UmicpError String := do
  let serialized ← e.serialize
  pure (generate_hash (utf8Encode serialized))

/-! ### Numeric kernel (src/bindings/rust/src/matrix.rs)

The element type `f32` is abstracted as a type `F` with the primitive operations
the kernel uses; the kernel's control flow depends only on the boolean
comparisons, so every claim about it is stated uniformly in `F`. -/

/-- The `f32` operations the kernel uses: arithmetic, square root, and the
comparisons `== 0.0` / `> 0.0`. -/
structure Float32Ops (F : Type) where
  zero : F
  add : F → F → F
  sub : F → F → F
  mul : F → F → F
  div : F → F → F
  neg : F → F
  sqrt : F → F
  beq : F → F → Bool
  lt : F → F → Bool

/-- Models `MatrixResult` from src/bindings/rust/src/types.rs (the `f64` fields
are modelled in the same element type `F`, the `as f64` widening being the
identity of the model). -/
structure MatrixResult (F : Type) where
  success : Bool
  error : Option String
  result : Option F
  similarity : Option F
  data : Option (List F)
deriving DecidableEq

/-- The all-`None` success record returned by the operations that write into a
caller buffer. -/
def MatrixResult.okNone (F : Type) : MatrixResult F :=
  { success := true, error := none, result := none, similarity := none, data := none }

variable {F : Type}

/-- The summation `a.iter().zip(b.iter()).map(|(x, y)| x * y).sum()`
(left fold starting from `0.0`, as `Sum for f32` accumulates). -/
def dotSum (ops : Float32Ops F) (a b : List F) : F :=
  ((a.zip b).map fun xy => ops.mul xy.1 xy.2).foldl ops.add ops.zero

/-- Models `Matrix::dot_product_simd`: the source falls back to the same
zip/map/sum expression. -/
def dot_product_simd (ops : Float32Ops F) (a b : List F) : F :=
  dotSum ops a b

/-- The dot-product value after the length dispatch (`a.len() >= 8` selects the
SIMD path, which computes the same sum). -/
def dotValue (ops : Float32Ops F) (a b : List F) : F :=
  if 8 ≤ a.length then dot_product_simd ops a b else dotSum ops a b

/-- Models `Matrix::dot_product`. -/
def Matrix.dot_product (ops : Float32Ops F) (a b : List F) :
    Except UmicpError (MatrixResult F) :=
  if a.length ≠ b.length then
    .error (.matrix ("Vector length mismatch: a(" ++ toString a.length ++ ") != b(" ++
      toString b.length ++ ")"))
  else
    .ok { success := true, error := none, result := some (dotValue ops a b),
          similarity := none, data := none }

/-- The L2 magnitude `a.iter().map(|x| x * x).sum::<f32>().sqrt()`. -/
def magnitude (ops : Float32Ops F) (v : List F) : F :=
  ops.sqrt ((v.map fun x => ops.mul x x).foldl ops.add ops.zero)

/-- Models `Matrix::cosine_similarity`, including the zero-magnitude policy. -/
def Matrix.cosine_similarity (ops : Float32Ops F) (a b : List F) :
    Except UmicpError (MatrixResult F) :=
  if a.length ≠ b.length then
    .error (.matrix ("Vector length mismatch: a(" ++ toString a.length ++ ") != b(" ++
      toString b.length ++ ")"))
  else do
    let dot_result ← Matrix.dot_product ops a b
    let dp := dot_result.result.getD ops.zero
    let a_magnitude := magnitude ops a
    let b_magnitude := magnitude ops b
    if ops.beq a_magnitude ops.zero || ops.beq b_magnitude ops.zero then
      pure { success := true, error := none, result := none, similarity := some ops.zero,
             data := none }
    else
      pure { success := true, error := none, result := none,
             similarity := some (ops.div dp (ops.mul a_magnitude b_magnitude)), data := none }

/-- Models `Matrix::vector_add`; the returned list is the output buffer after
the call. -/
def Matrix.vector_add (ops : Float32Ops F) (a b result : List F) :
    Except UmicpError (MatrixResult F) × List F :=
  if a.length ≠ b.length || a.length ≠ result.length then
    (.error (.matrix ("Vector length mismatch: a(" ++ toString a.length ++ "), b(" ++
       toString b.length ++ "), result(" ++ toString result.length ++ ")")), result)
  else
    (.ok (MatrixResult.okNone F), (a.zip b).map fun xy => ops.add xy.1 xy.2)

/-- Models `Matrix::vector_subtract`. -/
def Matrix.vector_subtract (ops : Float32Ops F) (a b result : List F) :
    Except UmicpError (MatrixResult F) × List F :=
  if a.length ≠ b.length || a.length ≠ result.length then
    (.error (.matrix ("Vector length mismatch: a(" ++ toString a.length ++ "), b(" ++
       toString b.length ++ "), result(" ++ toString result.length ++ ")")), result)
  else
    (.ok (MatrixResult.okNone F), (a.zip b).map fun xy => ops.sub xy.1 xy.2)

/-- Models `Matrix::vector_multiply` (Hadamard product). -/
def Matrix.vector_multiply (ops : Float32Ops F) (a b result : List F) :
    Except UmicpError (MatrixResult F) × List F :=
  if a.length ≠ b.length || a.length ≠ result.length then
    (.error (.matrix ("Vector length mismatch: a(" ++ toString a.length ++ "), b(" ++
       toString b.length ++ "), result(" ++ toString result.length ++ ")")), result)
  else
    (.ok (MatrixResult.okNone F), (a.zip b).map fun xy => ops.mul xy.1 xy.2)

/-- Models `Matrix::vector_scale`. -/
def Matrix.vector_scale (ops : Float32Ops F) (vector : List F) (scalar : F) (result : List F) :
    Except UmicpError (MatrixResult F) × List F :=
  if vector.length ≠ result.length then
    (.error (.matrix ("Vector length mismatch: vector(" ++ toString vector.length ++
       "), result(" ++ toString result.length ++ ")")), result)
  else
    (.ok (MatrixResult.okNone F), vector.map fun x => ops.mul x scalar)

/-- Models the private `Matrix::validate_dimensions`. -/
def validate_dimensions (a_len b_len result_len rows cols : Nat) : Except UmicpError Unit :=
  let expected_len := rows * cols
  if a_len ≠ expected_len || b_len ≠ expected_len || result_len ≠ expected_len then
    .error (.matrix ("Invalid matrix dimensions: expected " ++ toString rows ++ "x" ++
      toString cols ++ " (" ++ toString expected_len ++ " elements), got a(" ++
      toString a_len ++ "), b(" ++ toString b_len ++ "), result(" ++
      toString result_len ++ ")"))
  else .ok ()

/-- Models `Matrix::add_sequential`. -/
def add_sequential (ops : Float32Ops F) (a b : List F) : List F :=
  (a.zip b).map fun xy => ops.add xy.1 xy.2

/-- Models `Matrix::add_parallel` (the source runs the same sequential loop). -/
def add_parallel (ops : Float32Ops F) (a b : List F) (_rows _cols : Nat) : List F :=
  (a.zip b).map fun xy => ops.add xy.1 xy.2

/-- Models `Matrix::add`. -/
def Matrix.add (ops : Float32Ops F) (a b result : List F) (rows cols : Nat) :
    Except UmicpError (MatrixResult F) × List F :=
  match validate_dimensions a.length b.length result.length rows cols with
  | .error e => (.error e, result)
  | .ok () =>
    (.ok (MatrixResult.okNone F),
     if rows * cols > 1000 then add_parallel ops a b rows cols else add_sequential ops a b)

/-- Models `Matrix::multiply_sequential` after the zero fill: entry `(i, j)` of
the result accumulates `a[i*n+k] * b[k*p+j]` over `k`, starting from the filled
`0.0`. -/
def multiply_sequential (ops : Float32Ops F) (a b : List F) (m n p : Nat) : List F :=
  (List.range (m * p)).map fun idx =>
    (List.range n).foldl
      (fun acc k => ops.add acc (ops.mul (a.getD (idx / p * n + k) ops.zero)
        (b.getD (k * p + idx % p) ops.zero)))
      ops.zero

/-- Models `Matrix::multiply_parallel` (the source computes the same sums
sequentially). -/
def multiply_parallel (ops : Float32Ops F) (a b : List F) (m n p : Nat) : List F :=
  multiply_sequential ops a b m n p

/-- Models `Matrix::multiply`. -/
def Matrix.multiply (ops : Float32Ops F) (a b result : List F) (m n p : Nat) :
    Except UmicpError (MatrixResult F) × List F :=
  if a.length ≠ m * n || b.length ≠ n * p || result.length ≠ m * p then
    (.error (.matrix ("Invalid matrix dimensions: a(" ++ toString a.length ++ ") != " ++
       toString m ++ "x" ++ toString n ++ ", b(" ++ toString b.length ++ ") != " ++
       toString n ++ "x" ++ toString p ++ ", result(" ++ toString result.length ++ ") != " ++
       toString m ++ "x" ++ toString p)), result)
  else
    (.ok (MatrixResult.okNone F),
     if m * n * p > 10000 then multiply_parallel ops a b m n p
     else multiply_sequential ops a b m n p)

/-- Models `Matrix::transpose`: `output[j * rows + i] = input[i * cols + j]`. -/
def Matrix.transpose (ops : Float32Ops F) (input output : List F) (rows cols : Nat) :
    Except UmicpError (MatrixResult F) × List F :=
  if input.length ≠ rows * cols || output.length ≠ cols * rows then
    (.error (.matrix ("Invalid transpose dimensions: input(" ++ toString input.length ++
       ") != " ++ toString rows ++ "x" ++ toString cols ++ ", output(" ++
       toString output.length ++ ") != " ++ toString cols ++ "x" ++ toString rows)), output)
  else
    (.ok (MatrixResult.okNone F),
     (List.range (cols * rows)).map fun idx =>
       input.getD (idx % rows * cols + idx / rows) ops.zero)

/-- One row of `Matrix::normalize`: L2-normalize unless the norm is not
positive. -/
def normalizeRow (ops : Float32Ops F) (row : List F) : List F :=
  let norm := ops.sqrt ((row.map fun x => ops.mul x x).foldl ops.add ops.zero)
  if ops.lt ops.zero norm then row.map fun x => ops.div x norm else row

/-- Models `Matrix::normalize` (in place on `matrix`; the returned list is the
buffer after the call, also exposed through the `data` field). -/
def Matrix.normalize (ops : Float32Ops F) (matrix : List F) (rows cols : Nat) :
    Except UmicpError (MatrixResult F) × List F :=
  if matrix.length ≠ rows * cols then
    (.error (.matrix ("Invalid matrix dimensions: matrix(" ++ toString matrix.length ++
       ") != " ++ toString rows ++ "x" ++ toString cols)), matrix)
  else
    let out := ((List.range rows).map fun r =>
      normalizeRow ops (((matrix.drop (r * cols)).take cols))).flatten
    (.ok { success := true, error := none, result := none, similarity := none,
           data := some out }, out)

/-- Models `Matrix::determinant`: closed form for sizes 1 and 2, an
unimplemented-operation `Matrix` error otherwise. -/
def Matrix.determinant (ops : Float32Ops F) (matrix : List F) (size : Nat) :
    Except UmicpError (MatrixResult F) :=
  if matrix.length ≠ size * size then
    .error (.matrix ("Invalid matrix dimensions for determinant: matrix(" ++
      toString matrix.length ++ ") != " ++ toString size ++ "x" ++ toString size))
  else if size = 1 then
    .ok { success := true, error := none, result := some (matrix.getD 0 ops.zero),
          similarity := none, data := none }
  else if size = 2 then
    .ok { success := true, error := none,
          result := some (ops.sub (ops.mul (matrix.getD 0 ops.zero) (matrix.getD 3 ops.zero))
            (ops.mul (matrix.getD 1 ops.zero) (matrix.getD 2 ops.zero))),
          similarity := none, data := none }
  else
    .error (.matrix "Determinant calculation for matrices larger than 2x2 not yet implemented")

/-- The 2x2 determinant `matrix[0] * matrix[3] - matrix[1] * matrix[2]` computed
inside `Matrix::inverse`. -/
def inverseDet (ops : Float32Ops F) (matrix : List F) : F :=
  ops.sub (ops.mul (matrix.getD 0 ops.zero) (matrix.getD 3 ops.zero))
    (ops.mul (matrix.getD 1 ops.zero) (matrix.getD 2 ops.zero))

/-- The four entries `Matrix::inverse` writes for the 2x2 case: adjugate over
determinant. -/
def inverseOut (ops : Float32Ops F) (matrix : List F) : List F :=
  [ops.div (matrix.getD 3 ops.zero) (inverseDet ops matrix),
   ops.div (ops.neg (matrix.getD 1 ops.zero)) (inverseDet ops matrix),
   ops.div (ops.neg (matrix.getD 2 ops.zero)) (inverseDet ops matrix),
   ops.div (matrix.getD 0 ops.zero) (inverseDet ops matrix)]

/-- Models `Matrix::inverse`: closed-form 2x2 via adjugate over determinant,
singular-matrix error for `det == 0.0`, unimplemented for any other size. -/
def Matrix.inverse (ops : Float32Ops F) (matrix result : List F) (size : Nat) :
    Except UmicpError (MatrixResult F) × List F :=
  if matrix.length ≠ size * size || result.length ≠ size * size then
    (.error (.matrix ("Invalid matrix dimensions for inverse: matrix(" ++
       toString matrix.length ++ ") != " ++ toString size ++ "x" ++ toString size ++
       ", result(" ++ toString result.length ++ ") != " ++ toString size ++ "x" ++
       toString size)), result)
  else if size = 2 then
    if ops.beq (inverseDet ops matrix) ops.zero then
      (.error (.matrix "Matrix is singular, cannot compute inverse"), result)
    else
      (.ok { success := true, error := none, result := none, similarity := none,
             data := some (inverseOut ops matrix) }, inverseOut ops matrix)
  else
    (.error (.matrix "Matrix inverse for matrices larger than 2x2 not yet implemented"), result)

/-- Floor square root by downward scan, structurally recursive so that it
reduces inside `decide`. -/
def natSqrtGo : Nat → Nat → Nat
  | 0, _ => 0
  | fuel + 1, n => if (fuel + 1) * (fuel + 1) ≤ n then fuel + 1 else natSqrtGo fuel n

/-- A concrete element type for evaluating the kernel at specific inputs:
integer arithmetic with a floor square root (exact on the perfect squares the
witnesses use). -/
def intOps : Float32Ops ℤ where
  zero := 0
  add := (· + ·)
  sub := (· - ·)
  mul := (· * ·)
  div := (· / ·)
  neg := (- ·)
  sqrt := fun x => Int.ofNat (natSqrtGo x.toNat x.toNat)
  beq := fun x y => x == y
  lt := fun x y => decide (x < y)

/-! ### Spec-side definitions

These definitions follow the specification text rather than the source; they are
compared with the source-derived definitions in the refinement theorems. -/

/-- Spec 4.1: the first validation failure among the capability entries, in
order (key before value for each entry). -/
def firstCapabilityError : List (String × String) → Option UmicpError
  | [] => none
  | (key, value) :: rest =>
    if (rustTrim key).data.isEmpty then
      some (.validation "Field \x27capability key\x27 cannot be empty")
    else if (rustTrim value).data.isEmpty then
      some (.validation "Field \x27capability value\x27 cannot be empty")
    else firstCapabilityError rest

/-- Spec 4.1: the first validation failure among the accept entries. -/
def firstAcceptError : List String → Option UmicpError
  | [] => none
  | content_type :: rest =>
    if (rustTrim content_type).data.isEmpty then
      some (.validation "Field \x27accept type\x27 cannot be empty")
    else firstAcceptError rest

/-- Spec 4.1, written as the spec words it: `build()` runs, in order, the
non-empty check on `from`, on `to`, on `messageId`, the UUID-format check on
`messageId`, then (when present) the per-entry capability checks, the
`schema_uri` check, and the per-entry accept checks; the first failing check
aborts with its validation error, otherwise the envelope is produced. -/
def buildOrderedSpec (b : EnvelopeBuilder) : Except UmicpError Envelope :=
  let e := b.envelope
  if (rustTrim e.from_).data.isEmpty then
    .error (.validation "Field \x27from\x27 cannot be empty")
  else if (rustTrim e.to_).data.isEmpty then
    .error (.validation "Field \x27to\x27 cannot be empty")
  else if (rustTrim e.message_id).data.isEmpty then
    .error (.validation "Field \x27message_id\x27 cannot be empty")
  else if !validate_uuid e.message_id then
    .error (.validation ("Invalid UUID format: " ++ e.message_id))
  else
    match (match e.capabilities with
           | some caps => firstCapabilityError caps
           | none => none) with
    | some err => .error err
    | none =>
      if (match e.schema_uri with
          | some s => (rustTrim s).data.isEmpty
          | none => false) then
        .error (.validation "Field \x27schema_uri\x27 cannot be empty")
      else
        match (match e.accept with
               | some acc => firstAcceptError acc
               | none => none) with
        | some err => .error err
        | none => .ok e

/-- Spec 3: a UUID in v4 textual form — hyphenated 8-4-4-4-12 whose version
nibble (character 14) is `4`. -/
def isUuidV4Textual (s : String) : Bool :=
  isHyphenatedUuid s.data && s.data.getD 14 ' ' == '4'

/-! ### Concrete instances used by witnesses and counterexamples -/

/-- A fixed v4 UUID standing in for `generate_uuid()`. -/
def sampleUuid : String := "123e4567-e89b-42d3-a456-426614174000"

/-- A fixed RFC-3339 timestamp standing in for `get_current_timestamp()`. -/
def sampleTimestamp : String := "2025-01-01T00:00:00+00:00"

/-- A concrete builder exercising sender, recipient, operation and a
capability. -/
def sampleBuilder : EnvelopeBuilder :=
  ((((EnvelopeBuilder.new sampleUuid sampleTimestamp).from_ "client-001").to_
    "server-001").operation .data).capability "priority" "high"

/-- The envelope `sampleBuilder` carries. -/
def sampleEnvelope : Envelope := sampleBuilder.envelope

/-- A builder exercising every optional field. -/
def fullBuilder : EnvelopeBuilder :=
  (((sampleBuilder.schema_uri "https://example.com/schema").accept
    ["application/json", "application/octet-stream"]).payload_hint
    { payload_type := .vector, size := some 3072, encoding := some .float32,
      count := some 768 }).payload_refs [[("uri", "part-0")]]

/-- The nil UUID: a parseable UUID whose version nibble is 0, not 4. -/
def nilUuid : String := "00000000-0000-0000-0000-000000000000"

/-- `sampleBuilder` with the message id explicitly set to the nil UUID. -/
def nilUuidBuilder : EnvelopeBuilder :=
  ((((EnvelopeBuilder.new sampleUuid sampleTimestamp).from_ "client-001").to_
    "server-001").message_id) nilUuid

/-- A well-formed wire object whose `from` and `to` are empty strings. -/
def blankPartiesJson : Json :=
  .obj [("v", .str "1.0"), ("msg_id", .str sampleUuid), ("ts", .str sampleTimestamp),
        ("from", .str ""), ("to", .str ""), ("op", .str "control")]

/-- An otherwise valid envelope whose message id is not parseable as a UUID. -/
def badUuidEnvelope : Envelope :=
  (((((EnvelopeBuilder.new sampleUuid sampleTimestamp).from_ "client-001").to_
    "server-001").message_id) "not-a-uuid").envelope

/-- A builder whose sender field is whitespace only. -/
def wsFromBuilder : EnvelopeBuilder :=
  ((EnvelopeBuilder.new sampleUuid sampleTimestamp).from_ "   ").to_ "server-001"

/-- An envelope with a two-entry capability map in one iteration order. -/
def capsEnvA : Envelope :=
  { version := "1.0", message_id := sampleUuid, timestamp := sampleTimestamp,
    from_ := "client-001", to_ := "server-001", operation := .data,
    capabilities := some [("a", "x"), ("b", "y")], schema_uri := none, accept := none,
    payload_hint := none, payload_refs := none }

/-- The same envelope except that its capability map iterates in the opposite
order — the same unordered key-value content, as two separately built Rust
`HashMap`s with equal contents may iterate differently. -/
def capsEnvB : Envelope :=
  { capsEnvA with capabilities := some [("b", "y"), ("a", "x")] }

/-- The value of `capsEnvA` written out independently, field by field. -/
def capsEnvATwin : Envelope :=
  { version := "1.0", message_id := "123e4567-e89b-42d3-a456-426614174000",
    timestamp := "2025-01-01T00:00:00+00:00", from_ := "client-001", to_ := "server-001",
    operation := .data, capabilities := some [("a", "x"), ("b", "y")], schema_uri := none,
    accept := none, payload_hint := none, payload_refs := none }

/-! ## Helper lemmas -/

@[simp] theorem exceptBind_ok (a : α) (f : α → Except ε β) : (Except.ok a >>= f) = f a := rfl

@[simp] theorem exceptBind_error (e : ε) (f : α → Except ε β) :
    ((Except.error e : Except ε α) >>= f) = Except.error e := rfl

@[simp] theorem exceptPure_eq_ok (a : α) : (pure a : Except ε α) = Except.ok a := rfl

@[simp] theorem exceptMap_ok (f : α → β) (a : α) :
    (f <$> (Except.ok a : Except ε α)) = Except.ok (f a) := rfl

@[simp] theorem exceptMap_error (f : α → β) (e : ε) :
    (f <$> (Except.error e : Except ε α)) = Except.error e := rfl

/-- Decoding the encoding of a string map gives the map back. -/
theorem asStrMap_strMapToJson (m : List (String × String)) :
    (strMapToJson m).asStrMap = some m := by
  induction m with
  | nil => rfl
  | cons kv rest ih =>
    simp only [strMapToJson, Json.asStrMap, List.map_cons, strPairsFromJson] at *
    simp [ih]

/-- Decoding the encoding of a string list gives the list back. -/
theorem asStrList_mapStr (l : List String) :
    (Json.arr (l.map Json.str)).asStrList = some l := by
  induction l with
  | nil => rfl
  | cons s rest ih =>
    simp only [Json.asStrList, List.map_cons, strListFromJson] at *
    simp [ih]

/-- Decoding the encoding of a list of string maps gives the list back. -/
theorem asStrMapList_map (rs : List (List (String × String))) :
    (Json.arr (rs.map strMapToJson)).asStrMapList = some rs := by
  induction rs with
  | nil => rfl
  | cons m rest ih =>
    simp only [Json.asStrMapList, List.map_cons, strMapsFromJson] at *
    simp [ih, asStrMap_strMapToJson]

/-- JSON round trip for the payload-hint wire struct. -/
theorem hintData_fromJson_toJson (h : PayloadHintData) :
    PayloadHintData.fromJson h.toJson = some h := by
  obtain ⟨t, sz, enc, cnt⟩ := h
  cases sz <;> cases enc <;> cases cnt <;> rfl

/-- JSON round trip for the envelope wire struct. -/
theorem envData_fromJson_toJson (d : EnvelopeData) :
    EnvelopeData.fromJson d.toJson = some d := by
  obtain ⟨v, msg_id, ts, fr, to2, op, caps, suri, acc, ph, prefs⟩ := d
  cases caps <;> cases suri <;> cases acc <;> cases ph <;> cases prefs <;>
    simp [EnvelopeData.toJson, EnvelopeData.fromJson, Json.getField, optField,
      Json.asString, asStrMap_strMapToJson, asStrList_mapStr, asStrMapList_map,
      hintData_fromJson_toJson, List.lookup]

/-- `from_envelope_data` inverts `to_envelope_data`: the operation and
payload-hint strings produced by the `Display` renderings are all matched back
to the same variants. -/
theorem from_to_envelope_data (e : Envelope) :
    Envelope.from_envelope_data e.to_envelope_data = .ok e := by
  obtain ⟨ver, msg_id, ts, fr, to2, op, caps, suri, acc, ph, prefs⟩ := e
  cases op <;> cases ph <;> try rfl
  all_goals (rename_i hint; obtain ⟨pt, sz, enc, cnt⟩ := hint; cases pt <;> cases enc <;> try rfl)
  all_goals (rename_i e'; cases e' <;> rfl)

/-- The round-trip law holds for every envelope value, built or not. -/
theorem deserialize_serialize (e : Envelope) :
    Envelope.deserializeJson e.serializeJson = .ok e := by
  simp only [Envelope.deserializeJson, Envelope.serializeJson, envData_fromJson_toJson]
  exact from_to_envelope_data e

/-- Inversion for `build`: a successful build returns the builder's envelope,
which passed validation. -/
theorem build_ok_envelope (b : EnvelopeBuilder) (e : Envelope) (h : b.build = .ok e) :
    e = b.envelope ∧ b.envelope.validate = .ok () := by
  unfold EnvelopeBuilder.build at h
  cases hv : b.envelope.validate with
  | ok u => cases u; simp [hv] at h; exact ⟨h.symm, rfl⟩
  | error err => simp [hv] at h

/-- The capability loop stops at the first failing entry. -/
theorem validateCapabilitiesList_eq_first (l : List (String × String)) :
    validateCapabilitiesList l =
      match firstCapabilityError l with
      | some err => .error err
      | none => .ok () := by
  induction l with
  | nil => rfl
  | cons kv rest ih =>
    obtain ⟨k, v⟩ := kv
    by_cases hk : (rustTrim k).data = []
    · simp [validateCapabilitiesList, firstCapabilityError, validate_non_empty, hk]
    · by_cases hv : (rustTrim v).data = []
      · simp [validateCapabilitiesList, firstCapabilityError, validate_non_empty, hk, hv]
      · simp [validateCapabilitiesList, firstCapabilityError, validate_non_empty, hk, hv, ih]

/-- The accept loop stops at the first failing entry. -/
theorem validateAcceptList_eq_first (l : List String) :
    validateAcceptList l =
      match firstAcceptError l with
      | some err => .error err
      | none => .ok () := by
  induction l with
  | nil => rfl
  | cons t rest ih =>
    by_cases ht : (rustTrim t).data = []
    · simp [validateAcceptList, firstAcceptError, validate_non_empty, ht]
    · simp [validateAcceptList, firstAcceptError, validate_non_empty, ht, ih]

/-- Trimming a whitespace-only string leaves nothing. -/
theorem rustTrim_data_nil (s : String) (h : s.data.all isRustWhitespace = true) :
    (rustTrim s).data = [] := by
  have hall : ∀ x ∈ s.data, isRustWhitespace x := by
    intro x hx
    exact List.all_eq_true.mp h x hx
  have h1 : s.data.dropWhile isRustWhitespace = [] :=
    List.dropWhile_eq_nil_iff.mpr hall
  simp [rustTrim, h1]

/-- Hex digits render inside the lowercase alphabet. -/
theorem hexDigitChar_mem (n : Nat) (h : n < 16) :
    hexDigitChar n ∈ ("0123456789abcdef").data := by
  interval_cases n <;> decide

/-- Every character `hexEncode` emits is a lowercase hex digit. -/
theorem hexEncode_lowercase (bs : List Nat) (c : Char)
    (hc : c ∈ (hexEncode bs).data) : c ∈ ("0123456789abcdef").data := by
  simp only [hexEncode] at hc
  rw [List.mem_flatten] at hc
  obtain ⟨l, hl, hcl⟩ := hc
  rw [List.mem_map] at hl
  obtain ⟨b, _, rfl⟩ := hl
  simp only [List.mem_cons, List.not_mem_nil, or_false] at hcl
  rcases hcl with rfl | rfl
  · exact hexDigitChar_mem _ (Nat.mod_lt _ (by norm_num))
  · exact hexDigitChar_mem _ (Nat.mod_lt _ (by norm_num))

/-! ## Kernel helper lemmas -/

theorem dot_product_ok_fields {F : Type} (ops : Float32Ops F) (a b : List F)
    (r : MatrixResult F) (h : Matrix.dot_product ops a b = .ok r) :
    r.result = some (dotValue ops a b) ∧ r.similarity = none ∧ r.data = none := by
  unfold Matrix.dot_product at h
  split at h
  · cases h
  · cases h; exact ⟨rfl, rfl, rfl⟩

theorem cosine_ok_fields {F : Type} (ops : Float32Ops F) (a b : List F)
    (r : MatrixResult F) (h : Matrix.cosine_similarity ops a b = .ok r) :
    r.result = none ∧ (∃ x, r.similarity = some x) ∧ r.data = none := by
  unfold Matrix.cosine_similarity at h
  split at h
  · cases h
  · rename_i hlen
    unfold Matrix.dot_product at h
    rw [if_neg hlen] at h
    simp only [exceptBind_ok] at h
    split at h <;> cases h <;> exact ⟨rfl, ⟨_, rfl⟩, rfl⟩

theorem determinant_ok_fields {F : Type} (ops : Float32Ops F) (m : List F) (size : Nat)
    (r : MatrixResult F) (h : Matrix.determinant ops m size = .ok r) :
    (∃ x, r.result = some x) ∧ r.similarity = none ∧ r.data = none := by
  unfold Matrix.determinant at h
  split at h
  · cases h
  · split at h
    · cases h; exact ⟨⟨_, rfl⟩, rfl, rfl⟩
    · split at h
      · cases h; exact ⟨⟨_, rfl⟩, rfl, rfl⟩
      · cases h

theorem normalize_ok_fields {F : Type} (ops : Float32Ops F) (m : List F) (rows cols : Nat)
    (r : MatrixResult F) (out : List F)
    (h : Matrix.normalize ops m rows cols = (.ok r, out)) :
    r.result = none ∧ r.similarity = none ∧ r.data = some out := by
  unfold Matrix.normalize at h
  split at h
  · simp at h
  · simp only [Prod.mk.injEq, Except.ok.injEq] at h
    obtain ⟨rfl, rfl⟩ := h
    exact ⟨rfl, rfl, rfl⟩

theorem inverse_ok_fields {F : Type} (ops : Float32Ops F) (m res : List F) (size : Nat)
    (r : MatrixResult F) (out : List F)
    (h : Matrix.inverse ops m res size = (.ok r, out)) :
    r.result = none ∧ r.similarity = none ∧ r.data = some out := by
  unfold Matrix.inverse at h
  split at h
  · simp at h
  · split at h
    · split at h
      · simp at h
      · simp only [Prod.mk.injEq, Except.ok.injEq] at h
        obtain ⟨rfl, rfl⟩ := h
        exact ⟨rfl, rfl, rfl⟩
    · simp at h

theorem vector_add_ok_fields {F : Type} (ops : Float32Ops F) (a b res : List F)
    (r : MatrixResult F) (out : List F)
    (h : Matrix.vector_add ops a b res = (.ok r, out)) :
    r.result = none ∧ r.similarity = none ∧ r.data = none := by
  unfold Matrix.vector_add at h
  split at h
  · simp at h
  · simp only [Prod.mk.injEq, Except.ok.injEq] at h
    obtain ⟨rfl, -⟩ := h
    exact ⟨rfl, rfl, rfl⟩

theorem vector_subtract_ok_fields {F : Type} (ops : Float32Ops F) (a b res : List F)
    (r : MatrixResult F) (out : List F)
    (h : Matrix.vector_subtract ops a b res = (.ok r, out)) :
    r.result = none ∧ r.similarity = none ∧ r.data = none := by
  unfold Matrix.vector_subtract at h
  split at h
  · simp at h
  · simp only [Prod.mk.injEq, Except.ok.injEq] at h
    obtain ⟨rfl, -⟩ := h
    exact ⟨rfl, rfl, rfl⟩

theorem vector_multiply_ok_fields {F : Type} (ops : Float32Ops F) (a b res : List F)
    (r : MatrixResult F) (out : List F)
    (h : Matrix.vector_multiply ops a b res = (.ok r, out)) :
    r.result = none ∧ r.similarity = none ∧ r.data = none := by
  unfold Matrix.vector_multiply at h
  split at h
  · simp at h
  · simp only [Prod.mk.injEq, Except.ok.injEq] at h
    obtain ⟨rfl, -⟩ := h
    exact ⟨rfl, rfl, rfl⟩

theorem vector_scale_ok_fields {F : Type} (ops : Float32Ops F) (v : List F) (s : F)
    (res : List F) (r : MatrixResult F) (out : List F)
    (h : Matrix.vector_scale ops v s res = (.ok r, out)) :
    r.result = none ∧ r.similarity = none ∧ r.data = none := by
  unfold Matrix.vector_scale at h
  split at h
  · simp at h
  · simp only [Prod.mk.injEq, Except.ok.injEq] at h
    obtain ⟨rfl, -⟩ := h
    exact ⟨rfl, rfl, rfl⟩

theorem add_ok_fields {F : Type} (ops : Float32Ops F) (a b res : List F) (rows cols : Nat)
    (r : MatrixResult F) (out : List F)
    (h : Matrix.add ops a b res rows cols = (.ok r, out)) :
    r.result = none ∧ r.similarity = none ∧ r.data = none := by
  unfold Matrix.add validate_dimensions at h
  split at h
  · simp at h
  · simp only [Prod.mk.injEq, Except.ok.injEq] at h
    obtain ⟨rfl, -⟩ := h
    exact ⟨rfl, rfl, rfl⟩

theorem multiply_ok_fields {F : Type} (ops : Float32Ops F) (a b res : List F) (m n p : Nat)
    (r : MatrixResult F) (out : List F)
    (h : Matrix.multiply ops a b res m n p = (.ok r, out)) :
    r.result = none ∧ r.similarity = none ∧ r.data = none := by
  unfold Matrix.multiply at h
  split at h
  · simp at h
  · simp only [Prod.mk.injEq, Except.ok.injEq] at h
    obtain ⟨rfl, -⟩ := h
    exact ⟨rfl, rfl, rfl⟩

theorem transpose_ok_fields {F : Type} (ops : Float32Ops F) (input output : List F)
    (rows cols : Nat) (r : MatrixResult F) (out : List F)
    (h : Matrix.transpose ops input output rows cols = (.ok r, out)) :
    r.result = none ∧ r.similarity = none ∧ r.data = none := by
  unfold Matrix.transpose at h
  split at h
  · simp at h
  · simp only [Prod.mk.injEq, Except.ok.injEq] at h
    obtain ⟨rfl, -⟩ := h
    exact ⟨rfl, rfl, rfl⟩

theorem vector_add_mismatch {F : Type} (ops : Float32Ops F) (a b result : List F)
    (h : ¬(a.length = b.length ∧ a.length = result.length)) :
    ∃ msg, Matrix.vector_add ops a b result = (.error (.matrix msg), result) := by
  unfold Matrix.vector_add
  rw [if_pos (by simp only [Bool.or_eq_true, decide_eq_true_eq]; tauto)]
  exact ⟨_, rfl⟩

theorem vector_subtract_mismatch {F : Type} (ops : Float32Ops F) (a b result : List F)
    (h : ¬(a.length = b.length ∧ a.length = result.length)) :
    ∃ msg, Matrix.vector_subtract ops a b result = (.error (.matrix msg), result) := by
  unfold Matrix.vector_subtract
  rw [if_pos (by simp only [Bool.or_eq_true, decide_eq_true_eq]; tauto)]
  exact ⟨_, rfl⟩

theorem vector_multiply_mismatch {F : Type} (ops : Float32Ops F) (a b result : List F)
    (h : ¬(a.length = b.length ∧ a.length = result.length)) :
    ∃ msg, Matrix.vector_multiply ops a b result = (.error (.matrix msg), result) := by
  unfold Matrix.vector_multiply
  rw [if_pos (by simp only [Bool.or_eq_true, decide_eq_true_eq]; tauto)]
  exact ⟨_, rfl⟩

theorem vector_scale_mismatch {F : Type} (ops : Float32Ops F) (v : List F) (s : F)
    (result : List F) (h : v.length ≠ result.length) :
    ∃ msg, Matrix.vector_scale ops v s result = (.error (.matrix msg), result) := by
  unfold Matrix.vector_scale
  rw [if_pos h]
  exact ⟨_, rfl⟩

theorem add_mismatch {F : Type} (ops : Float32Ops F) (a b result : List F) (rows cols : Nat)
    (h : ¬(a.length = rows * cols ∧ b.length = rows * cols ∧ result.length = rows * cols)) :
    ∃ msg, Matrix.add ops a b result rows cols = (.error (.matrix msg), result) := by
  unfold Matrix.add validate_dimensions
  rw [if_pos (by simp only [Bool.or_eq_true, decide_eq_true_eq]; tauto)]
  exact ⟨_, rfl⟩

theorem multiply_mismatch {F : Type} (ops : Float32Ops F) (a b result : List F) (m n p : Nat)
    (h : ¬(a.length = m * n ∧ b.length = n * p ∧ result.length = m * p)) :
    ∃ msg, Matrix.multiply ops a b result m n p = (.error (.matrix msg), result) := by
  unfold Matrix.multiply
  rw [if_pos (by simp only [Bool.or_eq_true, decide_eq_true_eq]; tauto)]
  exact ⟨_, rfl⟩

theorem transpose_mismatch {F : Type} (ops : Float32Ops F) (input output : List F)
    (rows cols : Nat) (h : ¬(input.length = rows * cols ∧ output.length = cols * rows)) :
    ∃ msg, Matrix.transpose ops input output rows cols = (.error (.matrix msg), output) := by
  unfold Matrix.transpose
  rw [if_pos (by simp only [Bool.or_eq_true, decide_eq_true_eq]; tauto)]
  exact ⟨_, rfl⟩

theorem normalize_mismatch {F : Type} (ops : Float32Ops F) (m : List F) (rows cols : Nat)
    (h : m.length ≠ rows * cols) :
    ∃ msg, Matrix.normalize ops m rows cols = (.error (.matrix msg), m) := by
  unfold Matrix.normalize
  rw [if_pos h]
  exact ⟨_, rfl⟩

theorem inverse_mismatch {F : Type} (ops : Float32Ops F) (m res : List F) (size : Nat)
    (h : ¬(m.length = size * size ∧ res.length = size * size)) :
    ∃ msg, Matrix.inverse ops m res size = (.error (.matrix msg), res) := by
  unfold Matrix.inverse
  rw [if_pos (by simp only [Bool.or_eq_true, decide_eq_true_eq]; tauto)]
  exact ⟨_, rfl⟩

/-! ## Claims -/

/-- C1: for every envelope `e` successfully returned by `EnvelopeBuilder.build`,
deserializing the serialization of `e` succeeds and reproduces every field of
`e` exactly — `from`, `to`, `operation`, `messageId`, `capabilities`,
`schemaUri`, `accept`, `payloadHint`, `payloadRefs`, and also `version` and
`timestamp` unchanged (the result is `e` itself, field for field). -/
theorem C1_roundtrip (b : EnvelopeBuilder) (e : Envelope) (h : b.build = .ok e) :
    Envelope.deserializeJson e.serializeJson = .ok e :=
  deserialize_serialize e

theorem C1_roundtrip_witness :
    fullBuilder.build = .ok fullBuilder.envelope ∧
    Envelope.deserializeJson fullBuilder.envelope.serializeJson = .ok fullBuilder.envelope :=
  ⟨by decide, C1_roundtrip fullBuilder fullBuilder.envelope (by decide)⟩

set_option maxRecDepth 8192 in
/-- C2 counterexample: `capsEnvA` and `capsEnvB` have equal field values — every
plain field equal, and the capability maps equal as unordered key-value content
(one is a permutation of the other) — yet they serialize to different byte
sequences, because the wire object lists the capability entries in the map's
iteration order, which for two separately built Rust `HashMap`s with equal
contents need not agree. -/
theorem C2_map_order_dependent :
    capsEnvA.version = capsEnvB.version ∧
    capsEnvA.message_id = capsEnvB.message_id ∧
    capsEnvA.timestamp = capsEnvB.timestamp ∧
    capsEnvA.from_ = capsEnvB.from_ ∧
    capsEnvA.to_ = capsEnvB.to_ ∧
    capsEnvA.operation = capsEnvB.operation ∧
    capsEnvA.capabilities = some [("a", "x"), ("b", "y")] ∧
    capsEnvB.capabilities = some [("b", "y"), ("a", "x")] ∧
    List.Perm [("a", "x"), ("b", "y")] [("b", "y"), ("a", "x")] ∧
    capsEnvA.schema_uri = capsEnvB.schema_uri ∧
    capsEnvA.accept = capsEnvB.accept ∧
    capsEnvA.payload_hint = capsEnvB.payload_hint ∧
    capsEnvA.payload_refs = capsEnvB.payload_refs ∧
    Envelope.serialize capsEnvA ≠ Envelope.serialize capsEnvB :=
  ⟨rfl, rfl, rfl, rfl, rfl, rfl, rfl, rfl, List.Perm.swap ("b", "y") ("a", "x") [],
   rfl, rfl, rfl, rfl, by decide⟩

/-- C2 (amended): serialization is deterministic as a function of the
envelope's field values with the map iteration order fixed — envelopes whose
fields, including the capability map in its iteration order, are equal
serialize to the identical byte string (content-equal maps iterating
differently are not covered; see the counterexample) — and `hash` is exactly
the lowercase hex-encoded SHA-256 digest of the serialized bytes, so identical
serialized bytes always yield identical hashes. -/
theorem C2_deterministic_hash :
    (∀ e₁ e₂ : Envelope,
      e₁.version = e₂.version ∧ e₁.message_id = e₂.message_id ∧
      e₁.timestamp = e₂.timestamp ∧ e₁.from_ = e₂.from_ ∧ e₁.to_ = e₂.to_ ∧
      e₁.operation = e₂.operation ∧ e₁.capabilities = e₂.capabilities ∧
      e₁.schema_uri = e₂.schema_uri ∧ e₁.accept = e₂.accept ∧
      e₁.payload_hint = e₂.payload_hint ∧ e₁.payload_refs = e₂.payload_refs →
      e₁.serialize = e₂.serialize)
    ∧ (∀ e : Envelope,
      e.hash = .ok (hexEncode (sha256 (utf8Encode (renderJson e.serializeJson)))))
    ∧ (∀ e₁ e₂ : Envelope, e₁.serialize = e₂.serialize → e₁.hash = e₂.hash)
    ∧ (∀ (e : Envelope) (s : String), e.hash = .ok s →
      ∀ c ∈ s.data, c ∈ ("0123456789abcdef").data) := by
  refine ⟨?_, ?_, ?_, ?_⟩
  · intro e₁ e₂ hfields
    have heq : e₁ = e₂ := by
      obtain ⟨hv, hm, ht, hf, hto, hop, hc, hs, ha, hp, hr⟩ := hfields
      cases e₁; cases e₂; simp_all
    rw [heq]
  · intro e
    rfl
  · intro e₁ e₂ h
    simp [Envelope.hash, h]
  · intro e s h c hc
    have hdef : e.hash = .ok (hexEncode (sha256 (utf8Encode (renderJson e.serializeJson)))) :=
      rfl
    rw [h] at hdef
    rw [Except.ok.inj hdef] at hc
    exact hexEncode_lowercase _ _ hc

set_option maxRecDepth 8192 in
theorem C2_deterministic_hash_witness :
    Envelope.serialize capsEnvA = Envelope.serialize capsEnvATwin ∧
    Envelope.hash capsEnvA = Envelope.hash capsEnvATwin :=
  ⟨C2_deterministic_hash.1 capsEnvA capsEnvATwin
     ⟨rfl, rfl, rfl, rfl, rfl, rfl, rfl, rfl, rfl, rfl, rfl⟩,
   C2_deterministic_hash.2.2.1 capsEnvA capsEnvATwin (by decide)⟩

/-- C3 counterexample: `Envelope::new` and `Envelope::deserialize` are public
and both can hand out an envelope that fails the validation predicate — here
the envelope with empty `from`/`to` produced by `Envelope.new`, which
`deserialize` also returns for a well-formed wire object. -/
theorem C3_invalid_observable :
    Envelope.deserializeJson blankPartiesJson = .ok (Envelope.new sampleUuid sampleTimestamp) ∧
    (Envelope.new sampleUuid sampleTimestamp).validate =
      .error (.validation "Field \x27from\x27 cannot be empty") :=
  ⟨by decide, by decide⟩

/-- C3 (amended): every envelope returned by `EnvelopeBuilder.build` satisfies
the validation predicate; `Envelope::new` and `Envelope::deserialize` do not
re-validate and can expose envelopes that fail it. -/
theorem C3_build_validates (b : EnvelopeBuilder) (e : Envelope) (h : b.build = .ok e) :
    e.validate = .ok () := by
  obtain ⟨rfl, hv⟩ := build_ok_envelope b e h
  exact hv

theorem C3_build_validates_witness :
    sampleBuilder.build = .ok sampleEnvelope ∧ Envelope.validate sampleEnvelope = .ok () :=
  ⟨by decide, C3_build_validates sampleBuilder sampleEnvelope (by decide)⟩

/-- C4: `build` runs its checks in exactly the documented order — non-empty
`from`, non-empty `to`, non-empty `messageId`, UUID format of `messageId`,
then per-entry capability checks, `schemaUri`, and per-entry accept checks —
the first failing check aborting with its validation error and producing no
envelope, as `buildOrderedSpec` spells out. -/
theorem C4_check_order (b : EnvelopeBuilder) : b.build = buildOrderedSpec b := by
  unfold EnvelopeBuilder.build buildOrderedSpec Envelope.validate validateTail
  by_cases h1 : (rustTrim b.envelope.from_).data = []
  · simp [validate_non_empty, h1]
  · by_cases h2 : (rustTrim b.envelope.to_).data = []
    · simp [validate_non_empty, h1, h2]
    · by_cases h3 : (rustTrim b.envelope.message_id).data = []
      · simp [validate_non_empty, h1, h2, h3]
      · by_cases h4 : validate_uuid b.envelope.message_id
        · cases hc : b.envelope.capabilities with
          | none =>
            cases hs : b.envelope.schema_uri with
            | none =>
              cases ha : b.envelope.accept with
              | none => simp [validate_non_empty, h1, h2, h3, h4, hc, hs, ha]
              | some acc =>
                simp [validate_non_empty, h1, h2, h3, h4, hc, hs, ha,
                  validateAcceptList_eq_first]
                split <;> rename_i x heq <;> simp [heq]
            | some su =>
              by_cases hsu : (rustTrim su).data = []
              · simp [validate_non_empty, h1, h2, h3, h4, hc, hs, hsu]
              · cases ha : b.envelope.accept with
                | none => simp [validate_non_empty, h1, h2, h3, h4, hc, hs, hsu, ha]
                | some acc =>
                  simp [validate_non_empty, h1, h2, h3, h4, hc, hs, hsu, ha,
                    validateAcceptList_eq_first]
                  split <;> rename_i x heq <;> simp [heq]
          | some caps =>
            simp [validate_non_empty, h1, h2, h3, h4, hc, validateCapabilitiesList_eq_first,
              validateAcceptList_eq_first]
            cases hfc : firstCapabilityError caps with
            | some err => simp
            | none =>
              simp
              cases hs : b.envelope.schema_uri with
              | none =>
                cases ha : b.envelope.accept with
                | none => simp [validate_non_empty, ha]
                | some acc =>
                  simp [validate_non_empty, ha]
                  split <;> rename_i x heq <;> simp [heq]
              | some su =>
                by_cases hsu : (rustTrim su).data = []
                · simp [validate_non_empty, hsu]
                · cases ha : b.envelope.accept with
                  | none => simp [validate_non_empty, hsu, ha]
                  | some acc =>
                    simp [validate_non_empty, hsu, ha]
                    split <;> rename_i x heq <;> simp [heq]
        · simp [validate_non_empty, h1, h2, h3, h4]

/-- C5 counterexample: the nil UUID is not in v4 textual form, yet `build`
accepts it as a message id — validation checks only that the uuid crate can
parse the string, not that it is version 4. -/
theorem C5_non_v4_accepted :
    isUuidV4Textual nilUuid = false ∧
    nilUuidBuilder.envelope.message_id = nilUuid ∧
    nilUuidBuilder.build = .ok nilUuidBuilder.envelope :=
  ⟨by decide, by decide, by decide⟩

/-- C5 (amended): once the non-emptiness checks pass, validation accepts a
messageId exactly when `Uuid::parse_str` accepts it (any textual form, any
version): an unparseable messageId is rejected with the Validation error
naming it, and a parseable one passes the check, validation continuing with
the remaining field checks. -/
theorem C5_uuid_parse_check (e : Envelope)
    (h1 : validate_non_empty e.from_ "from" = .ok ())
    (h2 : validate_non_empty e.to_ "to" = .ok ())
    (h3 : validate_non_empty e.message_id "message_id" = .ok ()) :
    (validate_uuid e.message_id = false →
      e.validate = .error (.validation ("Invalid UUID format: " ++ e.message_id)))
    ∧ (validate_uuid e.message_id = true → e.validate = validateTail e) := by
  constructor <;> intro hu <;> simp [Envelope.validate, h1, h2, h3, hu]

theorem C5_uuid_parse_check_witness :
    badUuidEnvelope.validate =
      .error (.validation ("Invalid UUID format: " ++ badUuidEnvelope.message_id)) :=
  (C5_uuid_parse_check badUuidEnvelope (by decide) (by decide) (by decide)).1 (by decide)

/-- C6 counterexample: `vector_add` returns without error, yet none of
`result`, `similarity`, `data` is populated — not exactly one. -/
theorem C6_none_populated :
    Matrix.vector_add intOps [(1 : ℤ)] [2] [0] = (.ok (MatrixResult.okNone ℤ), [3]) ∧
    (MatrixResult.okNone ℤ).result = none ∧
    (MatrixResult.okNone ℤ).similarity = none ∧
    (MatrixResult.okNone ℤ).data = none :=
  ⟨by decide, rfl, rfl, rfl⟩

/-- C6 (amended): for every kernel operation that returns without error, which
of the fields `result`/`similarity`/`data` are populated depends only on the
operation kind — `dot_product` and `determinant` populate `result` only,
`cosine_similarity` populates `similarity` only, `normalize` and `inverse`
populate `data` only (with the written buffer), and the operations writing to a
caller-owned buffer (`vector_add`, `vector_subtract`, `vector_multiply`,
`vector_scale`, `add`, `multiply`, `transpose`) populate none of the three. -/
theorem C6_population_by_kind :
    (∀ (F : Type) (ops : Float32Ops F) (a b : List F) (r : MatrixResult F),
      Matrix.dot_product ops a b = .ok r →
      r.result = some (dotValue ops a b) ∧ r.similarity = none ∧ r.data = none)
    ∧ (∀ (F : Type) (ops : Float32Ops F) (a b : List F) (r : MatrixResult F),
      Matrix.cosine_similarity ops a b = .ok r →
      r.result = none ∧ (∃ x, r.similarity = some x) ∧ r.data = none)
    ∧ (∀ (F : Type) (ops : Float32Ops F) (m : List F) (size : Nat) (r : MatrixResult F),
      Matrix.determinant ops m size = .ok r →
      (∃ x, r.result = some x) ∧ r.similarity = none ∧ r.data = none)
    ∧ (∀ (F : Type) (ops : Float32Ops F) (m : List F) (rows cols : Nat) (r : MatrixResult F)
        (out : List F), Matrix.normalize ops m rows cols = (.ok r, out) →
      r.result = none ∧ r.similarity = none ∧ r.data = some out)
    ∧ (∀ (F : Type) (ops : Float32Ops F) (m res : List F) (size : Nat) (r : MatrixResult F)
        (out : List F), Matrix.inverse ops m res size = (.ok r, out) →
      r.result = none ∧ r.similarity = none ∧ r.data = some out)
    ∧ (∀ (F : Type) (ops : Float32Ops F) (a b res : List F) (r : MatrixResult F)
        (out : List F), Matrix.vector_add ops a b res = (.ok r, out) →
      r.result = none ∧ r.similarity = none ∧ r.data = none)
    ∧ (∀ (F : Type) (ops : Float32Ops F) (a b res : List F) (r : MatrixResult F)
        (out : List F), Matrix.vector_subtract ops a b res = (.ok r, out) →
      r.result = none ∧ r.similarity = none ∧ r.data = none)
    ∧ (∀ (F : Type) (ops : Float32Ops F) (a b res : List F) (r : MatrixResult F)
        (out : List F), Matrix.vector_multiply ops a b res = (.ok r, out) →
      r.result = none ∧ r.similarity = none ∧ r.data = none)
    ∧ (∀ (F : Type) (ops : Float32Ops F) (v : List F) (s : F) (res : List F)
        (r : MatrixResult F) (out : List F), Matrix.vector_scale ops v s res = (.ok r, out) →
      r.result = none ∧ r.similarity = none ∧ r.data = none)
    ∧ (∀ (F : Type) (ops : Float32Ops F) (a b res : List F) (rows cols : Nat)
        (r : MatrixResult F) (out : List F), Matrix.add ops a b res rows cols = (.ok r, out) →
      r.result = none ∧ r.similarity = none ∧ r.data = none)
    ∧ (∀ (F : Type) (ops : Float32Ops F) (a b res : List F) (m n p : Nat)
        (r : MatrixResult F) (out : List F), Matrix.multiply ops a b res m n p = (.ok r, out) →
      r.result = none ∧ r.similarity = none ∧ r.data = none)
    ∧ (∀ (F : Type) (ops : Float32Ops F) (input output : List F) (rows cols : Nat)
        (r : MatrixResult F) (out : List F),
      Matrix.transpose ops input output rows cols = (.ok r, out) →
      r.result = none ∧ r.similarity = none ∧ r.data = none) :=
  ⟨fun _ ops a b r h => dot_product_ok_fields ops a b r h,
   fun _ ops a b r h => cosine_ok_fields ops a b r h,
   fun _ ops m size r h => determinant_ok_fields ops m size r h,
   fun _ ops m rows cols r out h => normalize_ok_fields ops m rows cols r out h,
   fun _ ops m res size r out h => inverse_ok_fields ops m res size r out h,
   fun _ ops a b res r out h => vector_add_ok_fields ops a b res r out h,
   fun _ ops a b res r out h => vector_subtract_ok_fields ops a b res r out h,
   fun _ ops a b res r out h => vector_multiply_ok_fields ops a b res r out h,
   fun _ ops v s res r out h => vector_scale_ok_fields ops v s res r out h,
   fun _ ops a b res rows cols r out h => add_ok_fields ops a b res rows cols r out h,
   fun _ ops a b res m n p r out h => multiply_ok_fields ops a b res m n p r out h,
   fun _ ops input output rows cols r out h =>
     transpose_ok_fields ops input output rows cols r out h⟩

theorem C6_population_by_kind_witness :
    ((MatrixResult.mk true none (some (32 : ℤ)) none none).result =
       some (dotValue intOps [1, 2, 3] [4, 5, 6]) ∧
     (MatrixResult.mk true none (some (32 : ℤ)) none none).similarity = none ∧
     (MatrixResult.mk true none (some (32 : ℤ)) none none).data = none)
    ∧ ((MatrixResult.mk true none none (some (1 : ℤ)) none).result = none ∧
       (∃ x, (MatrixResult.mk true none none (some (1 : ℤ)) none).similarity = some x) ∧
       (MatrixResult.mk true none none (some (1 : ℤ)) none).data = none)
    ∧ ((∃ x, (MatrixResult.mk true none (some (-2 : ℤ)) none none).result = some x) ∧
       (MatrixResult.mk true none (some (-2 : ℤ)) none none).similarity = none ∧
       (MatrixResult.mk true none (some (-2 : ℤ)) none none).data = none)
    ∧ ((MatrixResult.mk true none none none (some [(3 : ℤ)/5, 4/5])).result = none ∧
       (MatrixResult.mk true none none none (some [(3 : ℤ)/5, 4/5])).similarity = none ∧
       (MatrixResult.mk true none none none (some [(3 : ℤ)/5, 4/5])).data =
         some [(3 : ℤ)/5, 4/5])
    ∧ ((MatrixResult.okNone ℤ).result = none ∧ (MatrixResult.okNone ℤ).similarity = none ∧
       (MatrixResult.okNone ℤ).data = none) :=
  ⟨C6_population_by_kind.1 ℤ intOps [1, 2, 3] [4, 5, 6] _ (by decide),
   C6_population_by_kind.2.1 ℤ intOps [3, 4] [3, 4] _ (by decide),
   C6_population_by_kind.2.2.1 ℤ intOps [1, 2, 3, 4] 2 _ (by decide),
   C6_population_by_kind.2.2.2.1 ℤ intOps [3, 4] 1 2 _ [(3 : ℤ)/5, 4/5] (by decide),
   C6_population_by_kind.2.2.2.2.2.1 ℤ intOps [1] [2] [0] _ [3] (by decide)⟩

/-- C7: every kernel operation with an output buffer fails fast on a dimension
mismatch: it returns a `Matrix` (dimension-mismatch) error and hands the output
buffer back entirely unchanged — no element is written before the check. -/
theorem C7_mismatch_no_write :
    (∀ (F : Type) (ops : Float32Ops F) (a b result : List F),
      ¬(a.length = b.length ∧ a.length = result.length) →
      ∃ msg, Matrix.vector_add ops a b result = (.error (.matrix msg), result))
    ∧ (∀ (F : Type) (ops : Float32Ops F) (a b result : List F),
      ¬(a.length = b.length ∧ a.length = result.length) →
      ∃ msg, Matrix.vector_subtract ops a b result = (.error (.matrix msg), result))
    ∧ (∀ (F : Type) (ops : Float32Ops F) (a b result : List F),
      ¬(a.length = b.length ∧ a.length = result.length) →
      ∃ msg, Matrix.vector_multiply ops a b result = (.error (.matrix msg), result))
    ∧ (∀ (F : Type) (ops : Float32Ops F) (v : List F) (s : F) (result : List F),
      v.length ≠ result.length →
      ∃ msg, Matrix.vector_scale ops v s result = (.error (.matrix msg), result))
    ∧ (∀ (F : Type) (ops : Float32Ops F) (a b result : List F) (rows cols : Nat),
      ¬(a.length = rows * cols ∧ b.length = rows * cols ∧ result.length = rows * cols) →
      ∃ msg, Matrix.add ops a b result rows cols = (.error (.matrix msg), result))
    ∧ (∀ (F : Type) (ops : Float32Ops F) (a b result : List F) (m n p : Nat),
      ¬(a.length = m * n ∧ b.length = n * p ∧ result.length = m * p) →
      ∃ msg, Matrix.multiply ops a b result m n p = (.error (.matrix msg), result))
    ∧ (∀ (F : Type) (ops : Float32Ops F) (input output : List F) (rows cols : Nat),
      ¬(input.length = rows * cols ∧ output.length = cols * rows) →
      ∃ msg, Matrix.transpose ops input output rows cols = (.error (.matrix msg), output))
    ∧ (∀ (F : Type) (ops : Float32Ops F) (m : List F) (rows cols : Nat),
      m.length ≠ rows * cols →
      ∃ msg, Matrix.normalize ops m rows cols = (.error (.matrix msg), m))
    ∧ (∀ (F : Type) (ops : Float32Ops F) (m res : List F) (size : Nat),
      ¬(m.length = size * size ∧ res.length = size * size) →
      ∃ msg, Matrix.inverse ops m res size = (.error (.matrix msg), res)) :=
  ⟨fun _ ops a b result h => vector_add_mismatch ops a b result h,
   fun _ ops a b result h => vector_subtract_mismatch ops a b result h,
   fun _ ops a b result h => vector_multiply_mismatch ops a b result h,
   fun _ ops v s result h => vector_scale_mismatch ops v s result h,
   fun _ ops a b result rows cols h => add_mismatch ops a b result rows cols h,
   fun _ ops a b result m n p h => multiply_mismatch ops a b result m n p h,
   fun _ ops input output rows cols h => transpose_mismatch ops input output rows cols h,
   fun _ ops m rows cols h => normalize_mismatch ops m rows cols h,
   fun _ ops m res size h => inverse_mismatch ops m res size h⟩

theorem C7_mismatch_no_write_witness :
    (∃ msg, Matrix.vector_add intOps [(1 : ℤ), 2] [1, 2, 3] [0, 0] =
      (.error (.matrix msg), [0, 0]))
    ∧ (∃ msg, Matrix.vector_subtract intOps [(1 : ℤ), 2] [1, 2, 3] [0, 0] =
      (.error (.matrix msg), [0, 0]))
    ∧ (∃ msg, Matrix.vector_multiply intOps [(1 : ℤ), 2] [1, 2, 3] [0, 0] =
      (.error (.matrix msg), [0, 0]))
    ∧ (∃ msg, Matrix.vector_scale intOps [(1 : ℤ), 2] 3 [0] = (.error (.matrix msg), [0]))
    ∧ (∃ msg, Matrix.add intOps [(1 : ℤ), 2] [1, 2] [0, 0, 0] 1 2 =
      (.error (.matrix msg), [0, 0, 0]))
    ∧ (∃ msg, Matrix.multiply intOps [(1 : ℤ), 2, 3] [1, 2, 3, 4] [0, 0, 0, 0] 2 2 2 =
      (.error (.matrix msg), [0, 0, 0, 0]))
    ∧ (∃ msg, Matrix.transpose intOps [(1 : ℤ), 2, 3, 4] [0, 0, 0] 2 2 =
      (.error (.matrix msg), [0, 0, 0]))
    ∧ (∃ msg, Matrix.normalize intOps [(1 : ℤ), 2, 3] 2 2 = (.error (.matrix msg), [1, 2, 3]))
    ∧ (∃ msg, Matrix.inverse intOps [(1 : ℤ), 2, 3] [0, 0, 0, 0] 2 =
      (.error (.matrix msg), [0, 0, 0, 0])) :=
  ⟨C7_mismatch_no_write.1 ℤ intOps [1, 2] [1, 2, 3] [0, 0] (by decide),
   C7_mismatch_no_write.2.1 ℤ intOps [1, 2] [1, 2, 3] [0, 0] (by decide),
   C7_mismatch_no_write.2.2.1 ℤ intOps [1, 2] [1, 2, 3] [0, 0] (by decide),
   C7_mismatch_no_write.2.2.2.1 ℤ intOps [1, 2] 3 [0] (by decide),
   C7_mismatch_no_write.2.2.2.2.1 ℤ intOps [1, 2] [1, 2] [0, 0, 0] 1 2 (by decide),
   C7_mismatch_no_write.2.2.2.2.2.1 ℤ intOps [1, 2, 3] [1, 2, 3, 4] [0, 0, 0, 0] 2 2 2
     (by decide),
   C7_mismatch_no_write.2.2.2.2.2.2.1 ℤ intOps [1, 2, 3, 4] [0, 0, 0] 2 2 (by decide),
   C7_mismatch_no_write.2.2.2.2.2.2.2.1 ℤ intOps [1, 2, 3] 2 2 (by decide),
   C7_mismatch_no_write.2.2.2.2.2.2.2.2 ℤ intOps [1, 2, 3] [0, 0, 0, 0] 2 (by decide)⟩

/-- C8: for equal-length vectors, when the L2 magnitude of either side compares
equal to zero, `cosine_similarity` returns successfully with similarity 0 — no
error — and when both magnitudes are nonzero it returns the dot product divided
by the product of the two magnitudes. -/
theorem C8_cosine_zero_policy {F : Type} (ops : Float32Ops F) (a b : List F)
    (hlen : a.length = b.length) :
    ((ops.beq (magnitude ops a) ops.zero = true ∨ ops.beq (magnitude ops b) ops.zero = true) →
      Matrix.cosine_similarity ops a b =
        .ok { success := true, error := none, result := none, similarity := some ops.zero,
              data := none })
    ∧ (ops.beq (magnitude ops a) ops.zero = false →
       ops.beq (magnitude ops b) ops.zero = false →
      Matrix.cosine_similarity ops a b =
        .ok { success := true, error := none, result := none,
              similarity := some (ops.div (dotValue ops a b)
                (ops.mul (magnitude ops a) (magnitude ops b))),
              data := none }) := by
  constructor
  · intro hz
    unfold Matrix.cosine_similarity Matrix.dot_product
    rw [if_neg (by simp [hlen]), if_neg (by simp [hlen])]
    simp only [exceptBind_ok, Option.getD_some]
    rw [if_pos (by rcases hz with h | h <;> simp [h])]
    rfl
  · intro ha hb
    unfold Matrix.cosine_similarity Matrix.dot_product
    rw [if_neg (by simp [hlen]), if_neg (by simp [hlen])]
    simp only [exceptBind_ok, Option.getD_some]
    rw [if_neg (by simp [ha, hb])]
    rfl

theorem C8_cosine_zero_policy_witness :
    Matrix.cosine_similarity intOps [(0 : ℤ), 0] [1, 2] =
      .ok { success := true, error := none, result := none,
            similarity := some intOps.zero, data := none }
    ∧ Matrix.cosine_similarity intOps [(3 : ℤ), 4] [3, 4] =
      .ok { success := true, error := none, result := none,
            similarity := some (intOps.div (dotValue intOps [(3 : ℤ), 4] [3, 4])
              (intOps.mul (magnitude intOps [(3 : ℤ), 4]) (magnitude intOps [(3 : ℤ), 4]))),
            data := none } :=
  ⟨(C8_cosine_zero_policy intOps [(0 : ℤ), 0] [1, 2] rfl).1 (Or.inl (by decide)),
   (C8_cosine_zero_policy intOps [(3 : ℤ), 4] [3, 4] rfl).2 (by decide) (by decide)⟩

/-- C9: with a buffer of the declared `size * size` length, `determinant`
returns `m[0]` for size 1 and `m[0]*m[3] - m[1]*m[2]` for size 2, and for every
size greater than 2 it returns the unimplemented-operation `Matrix` error —
never an approximation. -/
theorem C9_determinant_boundary {F : Type} (ops : Float32Ops F) (m : List F) (size : Nat)
    (hlen : m.length = size * size) :
    (size = 1 → Matrix.determinant ops m size =
      .ok { success := true, error := none, result := some (m.getD 0 ops.zero),
            similarity := none, data := none })
    ∧ (size = 2 → Matrix.determinant ops m size =
      .ok { success := true, error := none,
            result := some (ops.sub (ops.mul (m.getD 0 ops.zero) (m.getD 3 ops.zero))
              (ops.mul (m.getD 1 ops.zero) (m.getD 2 ops.zero))),
            similarity := none, data := none })
    ∧ (2 < size → Matrix.determinant ops m size =
      .error
        (.matrix "Determinant calculation for matrices larger than 2x2 not yet implemented")) := by
  refine ⟨?_, ?_, ?_⟩ <;> intro hs
  · subst hs
    rw [Matrix.determinant, if_neg (by simp [hlen]), if_pos rfl]
  · subst hs
    rw [Matrix.determinant, if_neg (by simp [hlen]), if_neg (by norm_num), if_pos rfl]
  · rw [Matrix.determinant, if_neg (by simp [hlen]), if_neg (by omega), if_neg (by omega)]

theorem C9_determinant_boundary_witness :
    Matrix.determinant intOps [(5 : ℤ)] 1 =
      .ok { success := true, error := none,
            result := some ([(5 : ℤ)].getD 0 intOps.zero), similarity := none, data := none }
    ∧ Matrix.determinant intOps [(1 : ℤ), 2, 3, 4] 2 =
      .ok { success := true, error := none,
            result := some (intOps.sub
              (intOps.mul ([(1 : ℤ), 2, 3, 4].getD 0 intOps.zero)
                ([(1 : ℤ), 2, 3, 4].getD 3 intOps.zero))
              (intOps.mul ([(1 : ℤ), 2, 3, 4].getD 1 intOps.zero)
                ([(1 : ℤ), 2, 3, 4].getD 2 intOps.zero))),
            similarity := none, data := none }
    ∧ Matrix.determinant intOps [(1 : ℤ), 1, 1, 1, 1, 1, 1, 1, 1] 3 =
      .error
        (.matrix "Determinant calculation for matrices larger than 2x2 not yet implemented") :=
  ⟨(C9_determinant_boundary intOps [(5 : ℤ)] 1 (by decide)).1 rfl,
   (C9_determinant_boundary intOps [(1 : ℤ), 2, 3, 4] 2 (by decide)).2.1 rfl,
   (C9_determinant_boundary intOps [(1 : ℤ), 1, 1, 1, 1, 1, 1, 1, 1] 3 (by decide)).2.2
     (by norm_num)⟩

/-- C10: the non-emptiness validation trims first, so a whitespace-only string
is rejected by `validate_non_empty` exactly as the empty string is — with the
same Validation error for whatever field is being checked — and `build` rejects
a whitespace-only `from` just like an empty one. -/
theorem C10_whitespace_only_rejected :
    (∀ s name : String, s.data.all isRustWhitespace = true →
      validate_non_empty s name = validate_non_empty "" name ∧
      validate_non_empty s name =
        .error (.validation ("Field \x27" ++ name ++ "\x27 cannot be empty")))
    ∧ (∀ b : EnvelopeBuilder, b.envelope.from_.data.all isRustWhitespace = true →
      b.build = .error (.validation "Field \x27from\x27 cannot be empty")) := by
  constructor
  · intro s name h
    have hnil : (rustTrim s).data = [] := rustTrim_data_nil s h
    constructor
    · unfold validate_non_empty
      rw [hnil]
      rfl
    · unfold validate_non_empty
      rw [hnil]
      rfl
  · intro b h
    have hnil : (rustTrim b.envelope.from_).data = [] := rustTrim_data_nil _ h
    simp [EnvelopeBuilder.build, Envelope.validate, validate_non_empty, hnil]

theorem C10_whitespace_only_rejected_witness :
    (validate_non_empty "   " "from" = validate_non_empty "" "from" ∧
     validate_non_empty "   " "from" =
       .error (.validation ("Field \x27" ++ "from" ++ "\x27 cannot be empty")))
    ∧ wsFromBuilder.build = .error (.validation "Field \x27from\x27 cannot be empty") :=
  ⟨C10_whitespace_only_rejected.1 "   " "from" (by decide),
   C10_whitespace_only_rejected.2 wsFromBuilder (by decide)⟩

end Umicp
